import Mathlib

/-!
Verification of the model module of the IS-LM-Model-Dashboard repository
(`src/models.py`). The two pure functions `kc_equilibrium` (the spec's
`solveEquilibrium`) and `kc_locus` (the spec's `computeLocus`) are embedded
over the rationals: every arithmetic operation of the source is closed-form
field arithmetic, and the only branch is the comparison `abs denom < 1e-9`,
which translates exactly. Python floats are modelled exactly by ℚ; the
spec's floating-point tolerances become exact equalities here.
-/

namespace Models

/-- Parameter record of the model, mirroring the dataclass `KCParams` of
`src/models.py` field for field. -/
structure KCParams where
  a : ℚ
  c : ℚ
  T : ℚ
  G : ℚ
  i : ℚ
  i_max : ℚ
  b0 : ℚ
  b1 : ℚ
  b2 : ℚ
  deriving Repr, DecidableEq

/-- Result record of `kc_equilibrium`, mirroring the returned dict
with keys `Y_star`, `AD_intercept`, `AD_slope`. -/
structure EquilibriumResult where
  Y_star : ℚ
  AD_intercept : ℚ
  AD_slope : ℚ
  deriving Repr, DecidableEq

/-- The literal `1e-9` used by the guard in `src/models.py`. -/
def eps : ℚ := 1 / 1000000000

/-- Embedding of `kc_equilibrium` of `src/models.py` (lines 21-50):
`denom = 1 - c - b1`, replaced by `1e-9` when `abs denom < 1e-9`;
`intercept = a - c*T + b0 - b2*i + G`; `Y_star = intercept / denom`. -/
def kc_equilibrium (p : KCParams) : EquilibriumResult :=
  let denom0 := 1 - p.c - p.b1
  let denom := if |denom0| < eps then eps else denom0
  let intercept := p.a - p.c * p.T + p.b0 - p.b2 * p.i + p.G
  { Y_star := intercept / denom
    AD_intercept := intercept
    AD_slope := p.c + p.b1 }

/-- Embedding of `kc_locus` of `src/models.py` (lines 52-67): the same
denominator guard, `intercept0 = a - c*T + b0 + G`, and the vectorized
numpy expression `(intercept0 - b2 * i_grid) / denom`, which acts
elementwise on the grid. -/
def kc_locus (p : KCParams) (i_grid : List ℚ) : List ℚ :=
  let denom0 := 1 - p.c - p.b1
  let denom := if |denom0| < eps then eps else denom0
  let intercept0 := p.a - p.c * p.T + p.b0 + p.G
  i_grid.map (fun ik => (intercept0 - p.b2 * ik) / denom)

/-- Division that fails (like Python raising `ZeroDivisionError`) when the
divisor is exactly zero, used to show the source never divides by zero. -/
def safeDiv (x y : ℚ) : Except String ℚ :=
  if y = 0 then Except.error "division by zero" else Except.ok (x / y)

/-- Variant of `kc_equilibrium` in which the one division of the source is
performed through `safeDiv`, so that a division by zero would surface as an
`Except.error` instead of being absorbed by the total division of ℚ. -/
def kc_equilibriumE (p : KCParams) : Except String EquilibriumResult := do
  let denom0 := 1 - p.c - p.b1
  let denom := if |denom0| < eps then eps else denom0
  let intercept := p.a - p.c * p.T + p.b0 - p.b2 * p.i + p.G
  let y ← safeDiv intercept denom
  return { Y_star := y
           AD_intercept := intercept
           AD_slope := p.c + p.b1 }

/-- Variant of `kc_locus` performing each elementwise division through
`safeDiv`, so a division by zero anywhere in the grid would surface as an
`Except.error`. -/
def kc_locusE (p : KCParams) (i_grid : List ℚ) : Except String (List ℚ) := do
  let denom0 := 1 - p.c - p.b1
  let denom := if |denom0| < eps then eps else denom0
  let intercept0 := p.a - p.c * p.T + p.b0 + p.G
  i_grid.mapM (fun ik => safeDiv (intercept0 - p.b2 * ik) denom)

/-- The worked example of the spec (§8): `a=20, c=0.6, T=10, G=50, b0=30,
b1=0.2, b2=10, i=0.5`, with the default chart bound `i_max=4`. -/
def exampleParams : KCParams :=
  { a := 20, c := 6/10, T := 10, G := 50, i := 1/2, i_max := 4
    b0 := 30, b1 := 2/10, b2 := 10 }

/-- Degenerate parameters `c=0.7, b1=0.3` (denominator exactly zero), all
other fields zero except `i_max=4`. -/
def degenParams : KCParams :=
  { a := 0, c := 7/10, T := 0, G := 0, i := 0, i_max := 4
    b0 := 0, b1 := 3/10, b2 := 0 }

/-- C8: for every `KCParams` (no precondition, including the degenerate
denominator case), `kc_equilibrium` returns `AD_slope = c + b1` and
`AD_intercept = a - c*T + b0 - b2*i + G`; neither field is affected by the
epsilon substitution applied to the denominator. -/
theorem AD_fields_exact (p : KCParams) :
    (kc_equilibrium p).AD_slope = p.c + p.b1 ∧
    (kc_equilibrium p).AD_intercept = p.a - p.c * p.T + p.b0 - p.b2 * p.i + p.G := by
  constructor <;> rfl

/-- C7: on the spec's worked example (`a=20, c=0.6, T=10, G=50, b0=30,
b1=0.2, b2=10, i=0.5`) the equilibrium income is `445`, and the locus over
the rate grid `[0, 1]` is `[470, 420]`. -/
theorem worked_example :
    (kc_equilibrium exampleParams).Y_star = 445 ∧
    kc_locus exampleParams [0, 1] = [470, 420] := by
  constructor <;> norm_num [kc_equilibrium, kc_locus, exampleParams, eps, abs_lt]

/-- C1: whenever the multiplier denominator is bounded away from zero
(`|1 - c - b1| > 0.01`), no epsilon substitution occurs and
`kc_equilibrium` returns `Y_star = (a - c*T + b0 - b2*i + G) / (1 - c - b1)`
exactly. -/
theorem Y_star_closed_form (p : KCParams) (h : |1 - p.c - p.b1| > 1/100) :
    (kc_equilibrium p).Y_star =
      (p.a - p.c * p.T + p.b0 - p.b2 * p.i + p.G) / (1 - p.c - p.b1) := by
  unfold kc_equilibrium
  have hne : ¬ |1 - p.c - p.b1| < eps := by
    intro hlt
    have : (1 : ℚ)/100 < eps := lt_trans h hlt
    norm_num [eps] at this
  simp only [hne, if_false]

/-- Witness for C1 at the spec's worked example, where the denominator is
`0.2`. -/
theorem Y_star_closed_form_witness :
    (kc_equilibrium exampleParams).Y_star =
      (exampleParams.a - exampleParams.c * exampleParams.T + exampleParams.b0
        - exampleParams.b2 * exampleParams.i + exampleParams.G) /
        (1 - exampleParams.c - exampleParams.b1) :=
  Y_star_closed_form exampleParams (by norm_num [exampleParams, lt_abs])

/-- C2: when `|1 - c - b1| < 1e-9` the function does not fail and returns
`Y_star = intercept / 1e-9` with `intercept = a - c*T + b0 - b2*i + G`;
the substituted epsilon is the fixed positive `1e-9` regardless of the sign
of the true denominator. -/
theorem Y_star_degenerate (p : KCParams) (h : |1 - p.c - p.b1| < eps) :
    (kc_equilibrium p).Y_star =
      (p.a - p.c * p.T + p.b0 - p.b2 * p.i + p.G) / eps := by
  unfold kc_equilibrium
  simp only [h, if_true]

/-- Witness for C2 at `c=0.7, b1=0.3` where the true denominator is exactly
zero. -/
theorem Y_star_degenerate_witness :
    (kc_equilibrium degenParams).Y_star =
      (degenParams.a - degenParams.c * degenParams.T + degenParams.b0
        - degenParams.b2 * degenParams.i + degenParams.G) / eps :=
  Y_star_degenerate degenParams (by norm_num [degenParams, eps, abs_lt])

/-- C3: `kc_locus` returns a sequence of exactly the length of the input
grid, in order, whose k-th element is `(intercept0 - b2 * i_k) / denom`
with `intercept0 = a - c*T + b0 + G` and `denom = 1 - c - b1` (substituted
by `1e-9` when `|denom| < 1e-9`). -/
theorem locus_length_and_pointwise (p : KCParams) (g : List ℚ) :
    (kc_locus p g).length = g.length ∧
    ∀ k : ℕ, k < g.length →
      (kc_locus p g)[k]? =
        some ((p.a - p.c * p.T + p.b0 + p.G - p.b2 * g.getD k 0) /
          (if |1 - p.c - p.b1| < eps then eps else 1 - p.c - p.b1)) := by
  unfold kc_locus
  refine ⟨List.length_map _ _, fun k hk => ?_⟩
  rw [List.getElem?_map, List.getElem?_eq_getElem hk, List.getD_eq_getElem g 0 hk,
    Option.map_some']

/-- Witness for C3 on the worked example with the grid `[0, 1]` at index 1. -/
theorem locus_length_and_pointwise_witness :
    (kc_locus exampleParams [0, 1]).length = 2 ∧
    (kc_locus exampleParams [0, 1])[1]? =
      some ((exampleParams.a - exampleParams.c * exampleParams.T + exampleParams.b0
          + exampleParams.G - exampleParams.b2 * ([0, 1] : List ℚ).getD 1 0) /
        (if |1 - exampleParams.c - exampleParams.b1| < eps then eps
          else 1 - exampleParams.c - exampleParams.b1)) :=
  ⟨(locus_length_and_pointwise exampleParams [0, 1]).1,
   (locus_length_and_pointwise exampleParams [0, 1]).2 1 (by norm_num)⟩

/-- C4: on a single-element grid `[r]`, the locus coincides with the
`Y_star` field of the equilibrium solver applied with the interest field
replaced by `r` — the batched computation refines the per-point solver. -/
theorem locus_singleton_consistent (p : KCParams) (r : ℚ) :
    kc_locus p [r] = [(kc_equilibrium { p with i := r }).Y_star] := by
  simp only [kc_locus, kc_equilibrium, List.map_cons, List.map_nil]
  norm_num
  congr 1
  ring

/-- C5: holding all other fields fixed, with `b2 > 0` and `1 - c - b1 > 0`,
a strictly larger interest rate yields a strictly smaller equilibrium
income. -/
theorem Y_star_strict_anti (p : KCParams) (r1 r2 : ℚ) (hb2 : 0 < p.b2)
    (hd : 0 < 1 - p.c - p.b1) (hr : r1 < r2) :
    (kc_equilibrium { p with i := r2 }).Y_star <
      (kc_equilibrium { p with i := r1 }).Y_star := by
  unfold kc_equilibrium
  dsimp only
  have hdpos : (0:ℚ) < if |1 - p.c - p.b1| < eps then eps else 1 - p.c - p.b1 := by
    split
    · norm_num [eps]
    · exact hd
  rw [div_lt_div_iff_of_pos_right hdpos]
  have := mul_lt_mul_of_pos_left hr hb2
  linarith

/-- Witness for C5 on the worked example with rates `0 < 1`. -/
theorem Y_star_strict_anti_witness :
    (kc_equilibrium { exampleParams with i := 1 }).Y_star <
      (kc_equilibrium { exampleParams with i := 0 }).Y_star :=
  Y_star_strict_anti exampleParams 0 1 (by norm_num [exampleParams])
    (by norm_num [exampleParams]) (by norm_num)

/-- Helper: `mapM` of `safeDiv` over a grid never fails when the shared
divisor is nonzero, and yields the elementwise quotients. -/
theorem mapM_safeDiv (f : ℚ → ℚ) (d : ℚ) (hd : d ≠ 0) (g : List ℚ) :
    g.mapM (fun ik => safeDiv (f ik) d) =
      Except.ok (g.map (fun ik => f ik / d)) := by
  induction g with
  | nil => rfl
  | cons x xs ih =>
      rw [List.mapM_cons, ih]
      simp only [safeDiv, hd, if_false]
      rfl

/-- Helper: the effective denominator (after the epsilon guard) is never
zero. -/
theorem effective_denom_ne_zero (p : KCParams) :
    (if |1 - p.c - p.b1| < eps then eps else 1 - p.c - p.b1) ≠ 0 := by
  split
  · norm_num [eps]
  · next hcond =>
      intro h0
      apply hcond
      rw [h0]
      norm_num [eps]

/-- C6: neither function fails on any input — running each with every
division guarded by `safeDiv` (which errors exactly when Python would raise
`ZeroDivisionError`) always returns `Except.ok` of the unguarded result,
because the epsilon substitution keeps the denominator nonzero. -/
theorem total_no_division_by_zero (p : KCParams) (g : List ℚ) :
    kc_equilibriumE p = Except.ok (kc_equilibrium p) ∧
    kc_locusE p g = Except.ok (kc_locus p g) := by
  have hd := effective_denom_ne_zero p
  constructor
  · simp only [kc_equilibriumE, kc_equilibrium, safeDiv, hd, if_false,
      bind, Except.bind, pure, Except.pure]
  · simp only [kc_locusE, kc_locus]
    exact mapM_safeDiv _ _ hd g

/-- C9 counterexample: at `c=0.7, b1=0.3` with all spending parameters zero
the denominator is degenerate (`|1 - c - b1| < 1e-9`), yet the returned
triple still satisfies the fixed-point equation
`Y_star = AD_intercept + AD_slope * Y_star` (both sides are `0`), refuting
the claim that the relation always fails in the degenerate case. -/
theorem fixed_point_degenerate_cex :
    |1 - degenParams.c - degenParams.b1| < eps ∧
    (kc_equilibrium degenParams).Y_star =
      (kc_equilibrium degenParams).AD_intercept +
        (kc_equilibrium degenParams).AD_slope * (kc_equilibrium degenParams).Y_star := by
  constructor
  · norm_num [degenParams, eps, abs_lt]
  · norm_num [kc_equilibrium, degenParams, eps]

/-- C9 (amended): when `|1 - c - b1| ≥ 1e-9` the returned triple satisfies
the fixed-point equation `Y_star = AD_intercept + AD_slope * Y_star`; in the
degenerate case `|1 - c - b1| < 1e-9` the relation fails whenever the
intercept is nonzero (when the intercept is zero, all terms vanish and the
relation holds trivially). -/
theorem fixed_point_equation (p : KCParams) :
    (eps ≤ |1 - p.c - p.b1| →
      (kc_equilibrium p).Y_star =
        (kc_equilibrium p).AD_intercept +
          (kc_equilibrium p).AD_slope * (kc_equilibrium p).Y_star) ∧
    (|1 - p.c - p.b1| < eps → (kc_equilibrium p).AD_intercept ≠ 0 →
      (kc_equilibrium p).Y_star ≠
        (kc_equilibrium p).AD_intercept +
          (kc_equilibrium p).AD_slope * (kc_equilibrium p).Y_star) := by
  constructor
  · intro hge
    have hnot : ¬ |1 - p.c - p.b1| < eps := not_lt.mpr hge
    have hne : (1 : ℚ) - p.c - p.b1 ≠ 0 := by
      intro h0
      apply hnot
      rw [h0]
      norm_num [eps]
    simp only [kc_equilibrium, hnot, if_false]
    field_simp
    ring
  · intro hdeg hI heq
    simp only [kc_equilibrium, hdeg, if_true] at heq hI
    have heps : (eps : ℚ) ≠ 0 := by norm_num [eps]
    field_simp at heq
    have hfac : (p.a - p.c * p.T + p.b0 - p.b2 * p.i + p.G)
        * (1 - p.c - p.b1 - eps) = 0 := by linear_combination heq
    rcases mul_eq_zero.mp hfac with h | h
    · exact hI h
    · have hde : (1 : ℚ) - p.c - p.b1 = eps := by linarith
      rw [hde] at hdeg
      have : |eps| = eps := abs_of_pos (by norm_num [eps])
      rw [this] at hdeg
      exact lt_irrefl _ hdeg

/-- Witness for C9 (amended): the nondegenerate branch at the worked
example, and the degenerate branch at `c=0.7, b1=0.3, a=10` where the
intercept is `10`. -/
theorem fixed_point_equation_witness :
    ((kc_equilibrium exampleParams).Y_star =
      (kc_equilibrium exampleParams).AD_intercept +
        (kc_equilibrium exampleParams).AD_slope * (kc_equilibrium exampleParams).Y_star) ∧
    ((kc_equilibrium { degenParams with a := 10 }).Y_star ≠
      (kc_equilibrium { degenParams with a := 10 }).AD_intercept +
        (kc_equilibrium { degenParams with a := 10 }).AD_slope *
          (kc_equilibrium { degenParams with a := 10 }).Y_star) :=
  ⟨(fixed_point_equation exampleParams).1 (by norm_num [exampleParams, eps, le_abs]),
   (fixed_point_equation { degenParams with a := 10 }).2
     (by norm_num [degenParams, eps, abs_lt])
     (by norm_num [kc_equilibrium, degenParams])⟩

/-- C10: `kc_locus` ignores the parameter fields `i` and `i_max`, and
`kc_equilibrium` ignores `i_max` — overwriting those fields leaves the
respective output unchanged. -/
theorem outputs_independent_of_unused_fields (p : KCParams) (r m m' : ℚ)
    (g : List ℚ) :
    kc_locus { p with i := r, i_max := m } g = kc_locus p g ∧
    kc_equilibrium { p with i_max := m' } = kc_equilibrium p := by
  constructor <;> rfl

end Models
